import Mathlib

/-!
Verification of the access-control and settings layer of `backaind`
(files `backaind/settings.py` and `tests/test_auth.py`).

The backing store is modelled as a list of `settings` rows in storage
order; the SQL statements issued by `settings.py` become list
transformations, and the per-request transaction becomes an explicit
buffered run that either commits or rolls back.  The parts of
`backaind/auth.py` that `settings.py` imports (the credential store, the
session resolver and the two login-required decorators) are not part of
the sources; they are modelled from the spec and pinned by the
assertions of `tests/test_auth.py`.
-/

namespace Backaind

/-- A row of the `settings` table: `(user_id, domain, name, value)`. -/
structure SettingRow where
  user_id : Int
  domain : String
  name : String
  value : String
deriving DecidableEq, Repr

/-- The `settings` table, as its rows in storage order. -/
abbrev DB := List SettingRow

/-- Does row `r` have key `(u, d, n)`?  This is the WHERE clause
`user_id = ? AND domain = ? AND name = ?` shared by the DELETE statement
and by the uniqueness constraint on `(user_id, domain, name)`. -/
def keyMatches (r : SettingRow) (u : Int) (d n : String) : Bool :=
  r.user_id == u && r.domain == d && r.name == n

/-- Effect of `INSERT OR REPLACE INTO settings (user_id, domain, name, value)
VALUES (?, ?, ?, ?)`: any existing row with the same unique key is
replaced; the fresh row gets a fresh rowid, hence appears last in
storage order. -/
def insertOrReplace (db : DB) (u : Int) (d n v : String) : DB :=
  db.filter (fun r => !(keyMatches r u d n)) ++ [⟨u, d, n, v⟩]

/-- Effect of `DELETE FROM settings WHERE user_id = ? AND domain = ? AND
name = ?`. -/
def deleteRow (db : DB) (u : Int) (d n : String) : DB :=
  db.filter (fun r => !(keyMatches r u d n))

/-- Is there a row with key `(u, d, n)`? -/
def hasRow (db : DB) (u : Int) (d n : String) : Bool :=
  db.any (fun r => keyMatches r u d n)

/-- Lookup in an association list, as Python `dict` access: the value at
the first (in a dict, the only) occurrence of the key. -/
def assocFind {α : Type} : List (String × α) → String → Option α
  | [], _ => none
  | (k', v) :: rest, k => if k' == k then some v else assocFind rest k

/-- Python `dict` assignment `m[k] = v`: overwrite in place if the key
exists, otherwise append. -/
def assocSet {α : Type} (m : List (String × α)) (k : String) (v : α) :
    List (String × α) :=
  match m with
  | [] => [(k, v)]
  | (k', v') :: rest =>
      if k' == k then (k, v) :: rest else (k', v') :: assocSet rest k v

/-- One step of the `get_settings` loop:
`settings.setdefault(row["domain"], {})[row["name"]] = row["value"]`. -/
def addRow (m : List (String × List (String × String))) (d n v : String) :
    List (String × List (String × String)) :=
  match m with
  | [] => [(d, [(n, v)])]
  | (d', inner) :: rest =>
      if d' == d then (d, assocSet inner n v) :: rest
      else (d', inner) :: addRow rest d n v

/-- `get_settings(user_id)`: select the user's rows and fold them into
the nested `domain -> name -> value` mapping (`backaind/settings.py`,
`get_settings`). -/
def get_settings (db : DB) (user_id : Int) : List (String × List (String × String)) :=
  (db.filter (fun r => r.user_id == user_id)).foldl
    (fun m r => addRow m r.domain r.name r.value) []

/-- Two-level lookup in the nested settings mapping. -/
def settingsFind (m : List (String × List (String × String))) (d n : String) :
    Option String :=
  match assocFind m d with
  | some inner => assocFind inner n
  | none => none

/-- Value of the last stored row with domain `d` and name `n`, if any.
Under the `(user_id, domain, name)` uniqueness constraint there is at
most one, but the reconstruction is faithful even without it. -/
def lastValue (rows : List SettingRow) (d n : String) : Option String :=
  (rows.reverse.find? (fun r => r.domain == d && r.name == n)).map SettingRow.value

/-- The catalog of recognized external-provider setting names
(`backaind/settings.py`, `EXTERNAL_PROVIDER_ENVVARS`). -/
def EXTERNAL_PROVIDER_ENVVARS : List String :=
  ["AI21_API_KEY",
   "ALEPH_ALPHA_API_KEY",
   "ANYSCALE_SERVICE_URL",
   "ANYSCALE_SERVICE_ROUTE",
   "ANYSCALE_SERVICE_TOKEN",
   "AVIARY_URL",
   "AVIARY_TOKEN",
   "BANANA_API_KEY",
   "BEAM_CLIENT_ID",
   "BEAM_CLIENT_SECRET",
   "COHERE_API_KEY",
   "DATABRICKS_HOST",
   "DATABRICKS_API_TOKEN",
   "DEEPINFRA_API_TOKEN",
   "FOREFRONTAI_API_KEY",
   "GOOGLE_API_KEY",
   "GOOGLE_APPLICATION_CREDENTIALS",
   "GOOSEAI_API_KEY",
   "HUGGINGFACE_API_KEY",
   "HUGGINGFACEHUB_API_TOKEN",
   "MOSAICML_API_TOKEN",
   "NLPCLOUD_API_KEY",
   "OPENAI_API_KEY",
   "REPLICATE_API_TOKEN",
   "STOCHASTICAI_API_KEY",
   "TEXT_GENERATION_INFERENCE_TOKEN",
   "WRITER_API_KEY",
   "WRITER_ORG_ID"]

/-- Python `str.strip()`: remove leading and trailing whitespace. -/
def pyStrip (s : String) : String :=
  ⟨((s.data.dropWhile Char.isWhitespace).reverse.dropWhile Char.isWhitespace).reverse⟩

/-- The submitted form: `request.form`, a mapping of field name to raw
string value. -/
abbrev Form := List (String × String)

/-- Form field access: `request.form[k]` when present (`k in request.form`). -/
def formGet (f : Form) (k : String) : Option String :=
  (f.find? (fun p => p.1 == k)).map Prod.snd

/-- Body of one iteration of the `external_providers` POST loop
(`backaind/settings.py` lines 80-96): if `envvar` is in the form with a
value that is non-blank after stripping, `INSERT OR REPLACE` the trimmed
value; otherwise `DELETE` the row for that key. -/
def processEnvvar (db : DB) (u : Int) (form : Form) (envvar : String) : DB :=
  match formGet form envvar with
  | some v =>
      if pyStrip v ≠ "" then insertOrReplace db u "external-providers" envvar (pyStrip v)
      else deleteRow db u "external-providers" envvar
  | none => deleteRow db u "external-providers" envvar

/-- The batch of writes of one `external_providers` POST by an admitted
real user `u`: one iteration per recognized name, in catalog order. -/
def externalProvidersPost (db : DB) (u : Int) (form : Form) : DB :=
  EXTERNAL_PROVIDER_ENVVARS.foldl (fun s e => processEnvvar s u form e) db

/-- The repository operation the spec calls `upsert_or_clear`: the loop
body of `external_providers`, with the domain as a parameter exactly as
it is a parameter of both SQL statements. -/
def upsert_or_clear (db : DB) (u : Int) (d n v : String) : DB :=
  if pyStrip v ≠ "" then insertOrReplace db u d n (pyStrip v)
  else deleteRow db u d n

/-- One SQL statement issued by the `external_providers` POST loop. -/
inductive Stmt where
  | insRep (u : Int) (d n v : String)
  | del (u : Int) (d n : String)
deriving DecidableEq, Repr

/-- Effect of a statement on the settings table. -/
def applyStmt (db : DB) : Stmt → DB
  | Stmt.insRep u d n v => insertOrReplace db u d n v
  | Stmt.del u d n => deleteRow db u d n

/-- The statement issued for one recognized name. -/
def stmtFor (u : Int) (form : Form) (envvar : String) : Stmt :=
  match formGet form envvar with
  | some v =>
      if pyStrip v ≠ "" then Stmt.insRep u "external-providers" envvar (pyStrip v)
      else Stmt.del u "external-providers" envvar
  | none => Stmt.del u "external-providers" envvar

/-- The whole batch of statements of one `external_providers` POST. -/
def externalProvidersStmts (u : Int) (form : Form) : List Stmt :=
  EXTERNAL_PROVIDER_ENVVARS.map (stmtFor u form)

/-- Buffered execution of a batch inside the request's transaction: each
`database.execute` may fail; a failure raises out of the view before
`database.commit()`, so the buffered writes are discarded.  `fails`
abstracts the store's failure behavior (`StoreUnavailable`). -/
def runStmts (fails : Stmt → Bool) : DB → List Stmt → Option DB
  | db, [] => some db
  | db, s :: rest => if fails s then none else runStmts fails (applyStmt db s) rest

/-- The settings table visible to reads after the request: the buffered
result if every statement succeeded and `database.commit()` ran, the
original table otherwise (no partial commit). -/
def runTx (db : DB) (stmts : List Stmt) (fails : Stmt → Bool) : DB :=
  match runStmts fails db stmts with
  | some db' => db'
  | none => db

/-- Is the row a settings-change row: domain `external-providers` and a
recognized name? -/
def isCatalogRow (r : SettingRow) : Bool :=
  r.domain == "external-providers" && EXTERNAL_PROVIDER_ENVVARS.contains r.name

/-- A resolved identity (`g.user`): either a real user row or the
synthetic demo user `{"id": -1, "username": "demo"}`. -/
inductive Identity where
  | real (id : Int) (username : String)
  | demo
deriving DecidableEq, Repr

/-- The helper `is_demo_user()` of `backaind/auth.py`, as observable on
a resolved identity: true exactly for the demo identity. -/
def is_demo_user : Identity → Bool
  | Identity.demo => true
  | Identity.real _ _ => false

/-- The `g.user["username"]` field of a resolved identity. -/
def usernameOf : Identity → String
  | Identity.demo => "demo"
  | Identity.real _ u => u

/-- The `g.user["id"]` field of a resolved identity. -/
def idOf : Identity → Int
  | Identity.demo => -1
  | Identity.real i _ => i

/-- Result of a gated request: either a redirect response that leaves the
store untouched, or the wrapped view ran on the store and produced its
output. -/
inductive GateResult (σ α : Type) where
  | redirectTo (location : String) (s : σ)
  | ran (s : σ) (out : α)
deriving DecidableEq, Repr

/-- Modelled from the spec: the strict decorator `login_required` of
`backaind/auth.py` (not under `src/`), pinned by
`tests/test_auth.py::test_login_required_redirects_if_not_logged_in`,
`test_login_required_declines_demo` and `test_login_required_accepts_user`.
It admits the wrapped view only for a present, non-demo identity and
otherwise redirects to the sign-in page without running the view. -/
def login_required {σ α : Type} (view : Identity → σ → σ × α)
    (ident : Option Identity) (s : σ) : GateResult σ α :=
  match ident with
  | some (Identity.real i u) =>
      let p := view (Identity.real i u) s
      GateResult.ran p.1 p.2
  | _ => GateResult.redirectTo "/auth/login" s

/-- Modelled from the spec: the permissive decorator
`login_required_allow_demo` of `backaind/auth.py` (not under `src/`),
pinned by the three `test_login_required_allow_demo_*` tests.  It admits
any present identity, demo included, and otherwise redirects to the
sign-in page without running the view. -/
def login_required_allow_demo {σ α : Type} (view : Identity → σ → σ × α)
    (ident : Option Identity) (s : σ) : GateResult σ α :=
  match ident with
  | some who =>
      let p := view who s
      GateResult.ran p.1 p.2
  | none => GateResult.redirectTo "/auth/login" s

/-- Modelled from the spec: the Credential Store of `backaind/auth.py`
(not under `src/`), abstracted as the per-username stored secret (the
salted hash is collapsed to the password it verifies, which is all
`tests/test_auth.py::test_set_password` observes). -/
abbrev CredStore := List (String × String)

/-- Modelled from the spec: `is_password_correct(username, candidate)` —
fails closed on an unknown username, otherwise compares the candidate
against the stored secret. -/
def is_password_correct (cs : CredStore) (username candidate : String) : Bool :=
  match assocFind cs username with
  | some stored => stored == candidate
  | none => false

/-- Modelled from the spec: `set_password(username, new_password)` —
overwrite the stored secret for the username. -/
def set_password (cs : CredStore) (username newPassword : String) : CredStore :=
  assocSet cs username newPassword

/-- A flash message: text and category, as `flash(message, category)`. -/
abbrev Flash := String × String

/-- The fields of the password-change form. -/
structure PwForm where
  current_password : String
  new_password : String
  new_password_confirmation : String
deriving DecidableEq, Repr

/-- The `password` view body (`backaind/settings.py` lines 47-66), run
for an admitted identity `who`: the demo write-ban first, then on POST
the three validations in source order, and only past all three the
`set_password` write. -/
def passwordView (isPost : Bool) (f : PwForm) (who : Identity) (cs : CredStore) :
    CredStore × Option Flash :=
  if is_demo_user who then
    (cs, some ("You cannot change the password of the demo user.", "warning"))
  else if isPost then
    if f.new_password ≠ f.new_password_confirmation then
      (cs, some ("Password and confirmation do not match.", "danger"))
    else if !(is_password_correct cs (usernameOf who) f.current_password) then
      (cs, some ("Incorrect current password.", "danger"))
    else if f.new_password.length < 10 then
      (cs, some ("Password must be at least 10 characters long.", "danger"))
    else
      (set_password cs (usernameOf who) f.new_password,
       some ("Password changed successfully.", "success"))
  else (cs, none)

/-- The `/settings/password` endpoint: the view wrapped by
`login_required_allow_demo`. -/
def password (ident : Option Identity) (isPost : Bool) (f : PwForm)
    (cs : CredStore) : GateResult CredStore (Option Flash) :=
  login_required_allow_demo (passwordView isPost f) ident cs

/-- The `external_providers` view body (`backaind/settings.py` lines
71-105), run for an admitted identity `who`: the demo write-ban first,
then on POST the committed batch of per-key writes for `g.user["id"]`. -/
def externalProvidersView (isPost : Bool) (form : Form) (who : Identity) (db : DB) :
    DB × Option Flash :=
  if is_demo_user who then
    (db, some ("You cannot change the external providers settings of the demo user.",
               "warning"))
  else if isPost then
    (externalProvidersPost db (idOf who) form, some ("Settings saved successfully.", "success"))
  else (db, none)

/-- The `/settings/external-providers` endpoint: the view wrapped by
`login_required_allow_demo`. -/
def external_providers (ident : Option Identity) (isPost : Bool) (form : Form)
    (db : DB) : GateResult DB (Option Flash) :=
  login_required_allow_demo (externalProvidersView isPost form) ident db

/-- Outcome of one run of the Session Resolver: the transport-session
token after the request, `g.user` and `g.is_demo_user`. -/
structure ResolveResult where
  sessionAfter : Option Int
  user : Option Identity
  is_demo_user : Bool
deriving DecidableEq, Repr

/-- The `user` table, as `id -> username` pairs (only the columns the
resolver reads). -/
abbrev UserTable := List (Int × String)

/-- Lookup `SELECT * FROM user WHERE id = ?`. -/
def lookupUser (users : UserTable) (uid : Int) : Option String :=
  (users.find? (fun p => p.1 == uid)).map Prod.snd

/-- Modelled from the spec: the Session Resolver (`load_logged_in_user`
of `backaind/auth.py`, not under `src/`), reconstructed from spec
section 4.2 and pinned by `tests/test_auth.py::test_demo_user`:
`demoEnabled` is the value of `ENABLE_DEMO_MODE` read at request time;
with no token and demo mode on, the demo identity is synthesized and the
sentinel `-1` is written into the transport session (the test asserts
`session["user_id"] == -1`); with the sentinel token and demo mode off,
the session entry is cleared (the test asserts
`session.get("user_id") is None`); a real token is looked up in the
`user` table and a stale token resolves to no identity.  The resolver
only reads the `user` table; it never writes a row to it. -/
def resolveSession (demoEnabled : Bool) (sessionIn : Option Int)
    (users : UserTable) : ResolveResult :=
  match sessionIn with
  | none =>
      if demoEnabled then ⟨some (-1), some Identity.demo, true⟩
      else ⟨none, none, false⟩
  | some uid =>
      if uid == -1 then
        if demoEnabled then ⟨some (-1), some Identity.demo, true⟩
        else ⟨none, none, false⟩
      else
        match lookupUser users uid with
        | some uname => ⟨some uid, some (Identity.real uid uname), false⟩
        | none => ⟨some uid, none, false⟩

/-! ## Lemmas about the nested-settings reconstruction -/

theorem assocFind_assocSet {α : Type} (m : List (String × α)) (k k' : String) (v : α) :
    assocFind (assocSet m k v) k' = if k == k' then some v else assocFind m k' := by
  induction m with
  | nil => simp [assocSet, assocFind]
  | cons p rest ih =>
    obtain ⟨pk, pv⟩ := p
    simp only [assocSet]
    by_cases h1 : pk = k <;> by_cases h2 : k = k' <;>
      simp_all [assocFind, beq_iff_eq]

theorem assocFind_addRow (m : List (String × List (String × String)))
    (d n v d' : String) :
    assocFind (addRow m d n v) d' =
      if d == d' then
        some (match assocFind m d with
              | some inner => assocSet inner n v
              | none => [(n, v)])
      else assocFind m d' := by
  induction m with
  | nil => simp [addRow, assocFind]
  | cons p rest ih =>
    obtain ⟨pd, inner⟩ := p
    simp only [addRow]
    by_cases h1 : pd = d <;> by_cases h2 : d = d' <;>
      simp_all [assocFind, beq_iff_eq]

theorem settingsFind_addRow (m : List (String × List (String × String)))
    (d n v d' n' : String) :
    settingsFind (addRow m d n v) d' n' =
      if d == d' && n == n' then some v else settingsFind m d' n' := by
  by_cases hd : d = d'
  · subst hd
    simp only [settingsFind, assocFind_addRow, beq_self_eq_true, if_true, Bool.true_and]
    cases h : assocFind m d with
    | none => by_cases hn : n = n' <;> simp [assocFind, beq_iff_eq, hn]
    | some inner => rw [assocFind_assocSet]
  · simp [settingsFind, assocFind_addRow, beq_iff_eq, hd]

theorem lastValue_append_singleton (xs : List SettingRow) (r : SettingRow)
    (d n : String) :
    lastValue (xs ++ [r]) d n =
      if r.domain == d && r.name == n then some r.value else lastValue xs d n := by
  simp only [lastValue, List.reverse_append, List.reverse_singleton,
    List.singleton_append, List.find?_cons]
  cases h : (r.domain == d && r.name == n) <;> simp [h]

theorem lastValue_eq_none (rows : List SettingRow) (d n : String)
    (h : ∀ r ∈ rows, (r.domain == d && r.name == n) = false) :
    lastValue rows d n = none := by
  have : rows.reverse.find? (fun r => r.domain == d && r.name == n) = none :=
    List.find?_eq_none.mpr fun r hr => by
      simp [h r (List.mem_reverse.mp hr)]
  simp [lastValue, this]

theorem settingsFind_foldl_addRow (rows : List SettingRow)
    (m : List (String × List (String × String))) (d n : String) :
    settingsFind (rows.foldl (fun acc r => addRow acc r.domain r.name r.value) m) d n
      = match lastValue rows d n with
        | some v => some v
        | none => settingsFind m d n := by
  induction rows using List.reverseRecOn generalizing m with
  | nil => simp [lastValue]
  | append_singleton xs r ih =>
    rw [List.foldl_append, List.foldl_cons, List.foldl_nil, settingsFind_addRow,
      lastValue_append_singleton]
    cases hr : (r.domain == d && r.name == n) with
    | true =>
      have hsym : (d == r.domain && n == r.name) = true := by
        simp only [Bool.and_eq_true, beq_iff_eq] at hr ⊢
        exact ⟨hr.1.symm, hr.2.symm⟩
      simp [hsym]
    | false =>
      have hsym : (d == r.domain && n == r.name) = false := by
        cases h1 : (d == r.domain) <;> cases h2 : (n == r.name) <;>
          simp_all [beq_iff_eq]
      simp only [hsym, Bool.false_eq_true, if_false, ih]

/-- Fundamental read-back lemma: the `(d, n)` entry of the nested mapping
`get_settings` reconstructs is the value of the last stored row of user
`u` with that domain and name. -/
theorem settingsFind_get_settings (db : DB) (u : Int) (d n : String) :
    settingsFind (get_settings db u) d n
      = lastValue (db.filter (fun r => r.user_id == u)) d n := by
  rw [get_settings, settingsFind_foldl_addRow]
  cases h : lastValue (db.filter fun r => r.user_id == u) d n <;>
    simp [settingsFind, assocFind]

theorem keyMatches_self (u : Int) (d n v : String) :
    keyMatches ⟨u, d, n, v⟩ u d n = true := by
  simp [keyMatches]

theorem domain_name_eq_false_of_keyMatches_false (r : SettingRow) (u : Int)
    (d n : String) (hu : (r.user_id == u) = true)
    (hk : keyMatches r u d n = false) :
    (r.domain == d && r.name == n) = false := by
  simp only [keyMatches, hu, Bool.true_and] at hk
  exact hk

/-- After a `DELETE` for key `(u, d, n)`, no row of user `u` carries
domain `d` and name `n`. -/
theorem lastValue_deleteRow (db : DB) (u : Int) (d n : String) :
    lastValue ((deleteRow db u d n).filter (fun r => r.user_id == u)) d n = none := by
  apply lastValue_eq_none
  intro r hr
  have h1 := List.mem_filter.mp hr
  have h2 := List.mem_filter.mp h1.1
  have hk : keyMatches r u d n = false := by
    have := h2.2
    simp only [Bool.not_eq_true'] at this
    exact this
  exact domain_name_eq_false_of_keyMatches_false r u d n h1.2 hk

/-! ## Theorems for the claims -/

/-- C4: for every user `u`, domain `d`, name `n` and value that is
non-empty after trimming, the upsert followed by `get_all(u)` yields a
mapping in which `d` maps to a mapping where `n` maps to the trimmed
value; in particular from an empty store,
`upsert_or_clear(u, "d", "n", "  value  ")` then `get_all(u)` yields
exactly `{"d": {"n": "value"}}`. -/
theorem upsert_then_get_yields_trimmed (db : DB) (u : Int) (d n v : String)
    (h : pyStrip v ≠ "") :
    settingsFind (get_settings (upsert_or_clear db u d n v) u) d n
      = some (pyStrip v) ∧
    get_settings (upsert_or_clear ([] : DB) 1 "d" "n" "  value  ") 1
      = [("d", [("n", "value")])] := by
  constructor
  · rw [upsert_or_clear, if_pos h, settingsFind_get_settings, insertOrReplace,
      List.filter_append]
    simp only [List.filter_cons, List.filter_nil, beq_self_eq_true, if_true]
    rw [lastValue_append_singleton]
    simp
  · decide

/-- Witness for C4 at the spec's concrete example. -/
theorem upsert_then_get_yields_trimmed_witness :
    pyStrip "  value  " ≠ "" ∧
    settingsFind (get_settings (upsert_or_clear ([] : DB) 1 "d" "n" "  value  ") 1)
        "d" "n" = some (pyStrip "  value  ") :=
  ⟨by decide, (upsert_then_get_yields_trimmed [] 1 "d" "n" "  value  " (by decide)).1⟩

/-- C5: supplying a value that is empty after trimming performs the
`DELETE` for key `(u, d, n)`, is a no-op when no such row exists, leaves
no row with that key, and afterwards the name `n` is entirely absent
from `get_all(u)` under domain `d` — also after a prior non-empty
value. -/
theorem clear_removes_key (db : DB) (u : Int) (d n v : String)
    (h : pyStrip v = "") :
    upsert_or_clear db u d n v = deleteRow db u d n ∧
    (hasRow db u d n = false → upsert_or_clear db u d n v = db) ∧
    hasRow (upsert_or_clear db u d n v) u d n = false ∧
    settingsFind (get_settings (upsert_or_clear db u d n v) u) d n = none := by
  have hdel : upsert_or_clear db u d n v = deleteRow db u d n := by
    rw [upsert_or_clear, if_neg (by simp [h])]
  refine ⟨hdel, ?_, ?_, ?_⟩
  · intro hno
    rw [hdel, deleteRow]
    apply List.filter_eq_self.mpr
    intro r hr
    have := (List.any_eq_false.mp hno) r hr
    simp only [Bool.not_eq_true] at this
    simp [this]
  · rw [hdel, hasRow, deleteRow]
    apply List.any_eq_false.mpr
    intro r hr
    have := (List.mem_filter.mp hr).2
    simp only [Bool.not_eq_true'] at this
    simp [this]
  · rw [hdel, settingsFind_get_settings, lastValue_deleteRow]

theorem runStmts_eq_none_of_fail (fails : Stmt → Bool) (db : DB)
    (stmts : List Stmt) (h : ∃ s ∈ stmts, fails s = true) :
    runStmts fails db stmts = none := by
  induction stmts generalizing db with
  | nil => simp at h
  | cons s rest ih =>
    obtain ⟨t, ht, hf⟩ := h
    rw [runStmts]
    rcases List.mem_cons.mp ht with rfl | htr
    · rw [if_pos hf]
    · by_cases hs : fails s = true
      · rw [if_pos hs]
      · rw [if_neg hs]
        exact ih _ ⟨t, htr, hf⟩

theorem runStmts_eq_foldl_of_ok (fails : Stmt → Bool) (db : DB)
    (stmts : List Stmt) (h : ∀ s ∈ stmts, fails s = false) :
    runStmts fails db stmts = some (stmts.foldl applyStmt db) := by
  induction stmts generalizing db with
  | nil => rfl
  | cons s rest ih =>
    rw [runStmts, if_neg (by simp [h s (List.mem_cons_self s rest)]),
      List.foldl_cons]
    exact ih _ fun t ht => h t (List.mem_cons_of_mem s ht)

theorem applyStmt_stmtFor (db : DB) (u : Int) (form : Form) (e : String) :
    applyStmt db (stmtFor u form e) = processEnvvar db u form e := by
  cases hf : formGet form e with
  | none => simp [stmtFor, processEnvvar, hf, applyStmt]
  | some v =>
    by_cases h : pyStrip v = "" <;> simp [stmtFor, processEnvvar, hf, h, applyStmt]

theorem foldl_applyStmt_stmts (db : DB) (u : Int) (form : Form) :
    (externalProvidersStmts u form).foldl applyStmt db
      = externalProvidersPost db u form := by
  rw [externalProvidersStmts, List.foldl_map, externalProvidersPost]
  simp only [applyStmt_stmtFor]

/-- C1: the batch of per-key writes of one settings-change submission is
atomic — if any statement of the batch fails, the settings visible to a
subsequent `get_all(u)` are exactly those visible before the batch; if
every statement succeeds, the committed table is the one with all
submitted keys applied together. -/
theorem settings_batch_atomic (db : DB) (u : Int) (form : Form)
    (fails : Stmt → Bool) :
    ((∃ s ∈ externalProvidersStmts u form, fails s = true) →
        get_settings (runTx db (externalProvidersStmts u form) fails) u
          = get_settings db u) ∧
    ((∀ s ∈ externalProvidersStmts u form, fails s = false) →
        runTx db (externalProvidersStmts u form) fails
          = externalProvidersPost db u form) := by
  constructor
  · intro h
    have hr := runStmts_eq_none_of_fail fails db (externalProvidersStmts u form) h
    simp only [runTx, hr]
  · intro h
    have hr := runStmts_eq_foldl_of_ok fails db (externalProvidersStmts u form) h
    simp only [runTx, hr, foldl_applyStmt_stmts]

/-- Witness for C1: an everywhere-failing batch over a one-row store
leaves `get_all` unchanged. -/
theorem settings_batch_atomic_witness :
    (∃ s ∈ externalProvidersStmts 1 [("OPENAI_API_KEY", "sk-test")],
        (fun _ => true) s = true) ∧
    get_settings
        (runTx [⟨1, "external-providers", "COHERE_API_KEY", "c"⟩]
          (externalProvidersStmts 1 [("OPENAI_API_KEY", "sk-test")])
          (fun _ => true)) 1
      = get_settings [(⟨1, "external-providers", "COHERE_API_KEY", "c"⟩ : SettingRow)] 1 :=
  ⟨⟨Stmt.del 1 "external-providers" "AI21_API_KEY", by decide, rfl⟩,
   (settings_batch_atomic [⟨1, "external-providers", "COHERE_API_KEY", "c"⟩] 1
      [("OPENAI_API_KEY", "sk-test")] (fun _ => true)).1
     ⟨Stmt.del 1 "external-providers" "AI21_API_KEY", by decide, rfl⟩⟩

theorem pyStrip_empty : pyStrip "" = "" := rfl

/-- C3 counterexample: a stored recognized key that is absent from the
submitted form is NOT left unchanged — submitting an empty form deletes
the stored `AI21_API_KEY` row, so `get_all` differs afterwards. -/
theorem unsubmitted_key_not_preserved :
    get_settings
        (externalProvidersPost [⟨1, "external-providers", "AI21_API_KEY", "x"⟩] 1 []) 1
      ≠ get_settings [(⟨1, "external-providers", "AI21_API_KEY", "x"⟩ : SettingRow)] 1 := by
  decide

/-- C3 (amended): the settings-change submission applies the
upsert-or-clear operation to EVERY recognized key, reading a key absent
from the submitted form as the empty value — so submitted keys with
non-blank values are upserted and all other recognized keys are cleared,
while rows outside the catalog are untouched. -/
theorem every_catalog_key_upserted_or_cleared (db : DB) (u : Int) (form : Form) :
    externalProvidersPost db u form
      = EXTERNAL_PROVIDER_ENVVARS.foldl
          (fun s e =>
            upsert_or_clear s u "external-providers" e ((formGet form e).getD ""))
          db := by
  rw [externalProvidersPost]
  have hfun : (fun (s : DB) (e : String) => processEnvvar s u form e)
      = fun (s : DB) (e : String) =>
          upsert_or_clear s u "external-providers" e ((formGet form e).getD "") := by
    funext s e
    cases hf : formGet form e with
    | none => simp [processEnvvar, hf, upsert_or_clear, pyStrip_empty]
    | some v =>
      by_cases h : pyStrip v = "" <;> simp [processEnvvar, hf, upsert_or_clear, h]
  rw [hfun]

theorem isCatalogRow_of_keyMatches (r : SettingRow) (u : Int) (e : String)
    (he : e ∈ EXTERNAL_PROVIDER_ENVVARS)
    (hk : keyMatches r u "external-providers" e = true) :
    isCatalogRow r = true := by
  simp only [keyMatches, Bool.and_eq_true, beq_iff_eq] at hk
  have hd : r.domain = "external-providers" := by tauto
  have hn : r.name = e := by tauto
  simp only [isCatalogRow, hd, hn, beq_self_eq_true, Bool.true_and]
  exact List.elem_eq_true_of_mem he

theorem filter_notCatalog_filter_key (db : DB) (u : Int) (e : String)
    (he : e ∈ EXTERNAL_PROVIDER_ENVVARS) :
    db.filter (fun r => !(isCatalogRow r) && !(keyMatches r u "external-providers" e))
      = db.filter (fun r => !(isCatalogRow r)) := by
  apply List.filter_congr
  intro r _
  cases hc : isCatalogRow r with
  | true => simp [hc]
  | false =>
    have hk : keyMatches r u "external-providers" e = false := by
      cases hkk : keyMatches r u "external-providers" e
      · rfl
      · rw [isCatalogRow_of_keyMatches r u e he hkk] at hc
        exact hc
    simp [hc, hk]

theorem filter_notCatalog_processEnvvar (db : DB) (u : Int) (form : Form)
    (e : String) (he : e ∈ EXTERNAL_PROVIDER_ENVVARS) :
    (processEnvvar db u form e).filter (fun r => !(isCatalogRow r))
      = db.filter (fun r => !(isCatalogRow r)) := by
  have hdel : (deleteRow db u "external-providers" e).filter (fun r => !(isCatalogRow r))
      = db.filter (fun r => !(isCatalogRow r)) := by
    rw [deleteRow, List.filter_filter, filter_notCatalog_filter_key db u e he]
  cases hf : formGet form e with
  | none => simp only [processEnvvar, hf, hdel]
  | some v =>
    by_cases h : pyStrip v = ""
    · simp only [processEnvvar, hf, h, ne_eq, not_true_eq_false, if_false, hdel]
    · simp only [processEnvvar, hf, h, ne_eq, not_false_eq_true, if_true,
        insertOrReplace]
      rw [List.filter_append, List.filter_filter, filter_notCatalog_filter_key db u e he]
      have hrow : isCatalogRow ⟨u, "external-providers", e, pyStrip v⟩ = true := by
        simp only [isCatalogRow, beq_self_eq_true, Bool.true_and]
        exact List.elem_eq_true_of_mem he
      simp [hrow]

theorem filter_notCatalog_foldl (l : List String)
    (hl : ∀ e ∈ l, e ∈ EXTERNAL_PROVIDER_ENVVARS) (db : DB) (u : Int) (form : Form) :
    (l.foldl (fun s e => processEnvvar s u form e) db).filter (fun r => !(isCatalogRow r))
      = db.filter (fun r => !(isCatalogRow r)) := by
  induction l generalizing db with
  | nil => rfl
  | cons e rest ih =>
    rw [List.foldl_cons,
      ih (fun e' he' => hl e' (List.mem_cons_of_mem e he')) (processEnvvar db u form e),
      filter_notCatalog_processEnvvar db u form e (hl e (List.mem_cons_self e rest))]

theorem mem_processEnvvar (db : DB) (u : Int) (form : Form) (e : String)
    (he : e ∈ EXTERNAL_PROVIDER_ENVVARS) (r : SettingRow)
    (hr : r ∈ processEnvvar db u form e) : r ∈ db ∨ isCatalogRow r = true := by
  cases hf : formGet form e with
  | none =>
    simp only [processEnvvar, hf, deleteRow] at hr
    exact Or.inl (List.mem_of_mem_filter hr)
  | some v =>
    by_cases h : pyStrip v = ""
    · simp only [processEnvvar, hf, h, ne_eq, not_true_eq_false, if_false,
        deleteRow] at hr
      exact Or.inl (List.mem_of_mem_filter hr)
    · simp only [processEnvvar, hf, h, ne_eq, not_false_eq_true, if_true,
        insertOrReplace] at hr
      rcases List.mem_append.mp hr with h1 | h2
      · exact Or.inl (List.mem_of_mem_filter h1)
      · right
        have hre : r = ⟨u, "external-providers", e, pyStrip v⟩ := by
          simpa using h2
        subst hre
        simp only [isCatalogRow, beq_self_eq_true, Bool.true_and]
        exact List.elem_eq_true_of_mem he

theorem mem_foldl_processEnvvar (l : List String)
    (hl : ∀ e ∈ l, e ∈ EXTERNAL_PROVIDER_ENVVARS) (db : DB) (u : Int) (form : Form)
    (r : SettingRow) (hr : r ∈ l.foldl (fun s e => processEnvvar s u form e) db) :
    r ∈ db ∨ isCatalogRow r = true := by
  induction l generalizing db with
  | nil => exact Or.inl hr
  | cons e rest ih =>
    rw [List.foldl_cons] at hr
    rcases ih (fun e' he' => hl e' (List.mem_cons_of_mem e he'))
        (processEnvvar db u form e) hr with h1 | h2
    · exact mem_processEnvvar db u form e (hl e (List.mem_cons_self e rest)) r h1
    · exact Or.inr h2

/-- C10: the settings-change endpoint only inserts rows with domain
`external-providers` and a name from the recognized catalog (every row
of the result is an old row or such a catalog row), and the rows outside
that catalog — other domains or unrecognized names — are preserved
exactly by every invocation. -/
theorem settings_endpoint_touches_only_catalog (db : DB) (u : Int) (form : Form) :
    (externalProvidersPost db u form).filter (fun r => !(isCatalogRow r))
      = db.filter (fun r => !(isCatalogRow r)) ∧
    ∀ r ∈ externalProvidersPost db u form, r ∈ db ∨ isCatalogRow r = true := by
  constructor
  · rw [externalProvidersPost]
    exact filter_notCatalog_foldl EXTERNAL_PROVIDER_ENVVARS (fun _ h => h) db u form
  · intro r hr
    rw [externalProvidersPost] at hr
    exact mem_foldl_processEnvvar EXTERNAL_PROVIDER_ENVVARS (fun _ h => h) db u form r hr

/-- Witness for C10: a concrete inserted row is a catalog row. -/
theorem settings_endpoint_touches_only_catalog_witness :
    (⟨1, "external-providers", "OPENAI_API_KEY", "k"⟩ : SettingRow)
        ∈ externalProvidersPost [] 1 [("OPENAI_API_KEY", "k")] ∧
    ((⟨1, "external-providers", "OPENAI_API_KEY", "k"⟩ : SettingRow) ∈ ([] : DB)
      ∨ isCatalogRow ⟨1, "external-providers", "OPENAI_API_KEY", "k"⟩ = true) :=
  ⟨by decide,
   (settings_endpoint_touches_only_catalog [] 1 [("OPENAI_API_KEY", "k")]).2 _ (by decide)⟩

/-- Witness for C5: a concrete clear after a prior non-empty value. -/
theorem clear_removes_key_witness :
    pyStrip "  " = "" ∧
    settingsFind
        (get_settings
          (upsert_or_clear (upsert_or_clear ([] : DB) 1 "d" "n" "old-value") 1 "d" "n" "  ")
          1) "d" "n" = none :=
  ⟨by decide,
   (clear_removes_key (upsert_or_clear ([] : DB) 1 "d" "n" "old-value") 1 "d" "n" "  "
      (by decide)).2.2.2⟩

/-- C2: for any request resolved to the demo identity — admitted by the
permissive gate — both mutating endpoints leave the backing store
untouched and answer with the benign "not permitted for demo" warning
flash, an outcome that is a rendered page, never the unauthenticated
redirect. -/
theorem demo_write_ban (isPost : Bool) (f : PwForm) (cs : CredStore)
    (form : Form) (db : DB) :
    password (some Identity.demo) isPost f cs
      = GateResult.ran cs
          (some ("You cannot change the password of the demo user.", "warning")) ∧
    external_providers (some Identity.demo) isPost form db
      = GateResult.ran db
          (some ("You cannot change the external providers settings of the demo user.",
                 "warning")) ∧
    (∀ loc s, password (some Identity.demo) isPost f cs
        ≠ GateResult.redirectTo loc s) ∧
    (∀ loc s, external_providers (some Identity.demo) isPost form db
        ≠ GateResult.redirectTo loc s) := by
  refine ⟨rfl, rfl, ?_, ?_⟩ <;> intro loc s <;> simp [password, external_providers,
    login_required_allow_demo, passwordView, externalProvidersView, is_demo_user]

/-- Witness for C2 at concrete stores and forms. -/
theorem demo_write_ban_witness :
    password (some Identity.demo) true ⟨"a", "b", "c"⟩ [("test", "test")]
      = GateResult.ran [("test", "test")]
          (some ("You cannot change the password of the demo user.", "warning")) :=
  (demo_write_ban true ⟨"a", "b", "c"⟩ [("test", "test")] [] []).1

/-- C6: a password-change POST by an admitted real user whose new
password is shorter than 10 characters, or differs from its
confirmation, or whose current password does not verify, is rejected
with the credential store unchanged — `set_password` is never reached,
so every previously stored password verifies exactly as before. -/
theorem password_validation_rejects (cs : CredStore) (i : Int) (uname : String)
    (f : PwForm)
    (h : f.new_password.length < 10 ∨ f.new_password ≠ f.new_password_confirmation
         ∨ is_password_correct cs uname f.current_password = false) :
    password (some (Identity.real i uname)) true f cs
      = GateResult.ran cs (passwordView true f (Identity.real i uname) cs).2 ∧
    (passwordView true f (Identity.real i uname) cs).2
      ≠ some ("Password changed successfully.", "success") := by
  have hstate : (passwordView true f (Identity.real i uname) cs)
      = (cs, (passwordView true f (Identity.real i uname) cs).2) ∧
      (passwordView true f (Identity.real i uname) cs).2
        ≠ some ("Password changed successfully.", "success") := by
    rw [passwordView]
    simp only [is_demo_user, Bool.false_eq_true, if_false, if_true, usernameOf]
    by_cases h1 : f.new_password = f.new_password_confirmation
    · rw [if_neg (by simp [h1])]
      by_cases h2 : is_password_correct cs uname f.current_password
      · rw [if_neg (by simp [h2])]
        have h3 : f.new_password.length < 10 := by
          rcases h with h | h | h
          · exact h
          · exact absurd h1 h
          · rw [h2] at h
            exact absurd h (by simp)
        rw [if_pos h3]
        exact ⟨rfl, by simp⟩
      · rw [if_pos (by simp [h2])]
        exact ⟨rfl, by simp⟩
    · rw [if_pos h1]
      exact ⟨rfl, by simp⟩
  constructor
  · show GateResult.ran (passwordView true f (Identity.real i uname) cs).1
        (passwordView true f (Identity.real i uname) cs).2 = _
    rw [congrArg Prod.fst hstate.1]
  · exact hstate.2

/-- Witness for C6: a too-short new password leaves the store as it
was. -/
theorem password_validation_rejects_witness :
    ((("short" : String).length < 10 ∨ ("short" : String) ≠ "short"
        ∨ is_password_correct [("test", "test")] "test" "test" = false) ∧
     password (some (Identity.real 1 "test")) true ⟨"test", "short", "short"⟩
         [("test", "test")]
       = GateResult.ran [("test", "test")]
           (passwordView true ⟨"test", "short", "short"⟩ (Identity.real 1 "test")
             [("test", "test")]).2) :=
  ⟨Or.inl (by decide),
   (password_validation_rejects [("test", "test")] 1 "test"
      ⟨"test", "short", "short"⟩ (Or.inl (by decide))).1⟩

/-- C7: the strict gate admits exactly a present real identity and the
permissive gate exactly a present identity; each rejection is the
redirect to the sign-in entry point with the store state passed through
untouched and the wrapped view never run. -/
theorem gates_admit_and_redirect {σ α : Type} (view : Identity → σ → σ × α)
    (s : σ) :
    (∀ i u, login_required view (some (Identity.real i u)) s
        = GateResult.ran (view (Identity.real i u) s).1 (view (Identity.real i u) s).2) ∧
    login_required view (some Identity.demo) s
      = GateResult.redirectTo "/auth/login" s ∧
    login_required view none s = GateResult.redirectTo "/auth/login" s ∧
    (∀ who, login_required_allow_demo view (some who) s
        = GateResult.ran (view who s).1 (view who s).2) ∧
    login_required_allow_demo view none s = GateResult.redirectTo "/auth/login" s :=
  ⟨fun _ _ => rfl, rfl, rfl, fun _ => rfl, rfl⟩

/-- Witness for C7 at a concrete view and state: the strict gate turns a
demo request into the sign-in redirect. -/
theorem gates_admit_and_redirect_witness :
    login_required (fun _ (s : Nat) => (s, "the_view")) (some Identity.demo) 0
      = GateResult.redirectTo "/auth/login" 0 :=
  (gates_admit_and_redirect (fun _ (s : Nat) => (s, "the_view")) 0).2.1

/-- C8 counterexample: resolving a token-less request with demo mode
enabled leaves the demo sentinel `-1` stored in the transport session —
the resolver does write it there (as `tests/test_auth.py::test_demo_user`
asserts with `session["user_id"] == -1`). -/
theorem demo_sentinel_is_stored_in_session :
    (resolveSession true none []).sessionAfter = some (-1) ∧
    (resolveSession true none []).user = some Identity.demo := by
  exact ⟨rfl, rfl⟩

/-- C8 (amended): for a token-less request with demo mode enabled, the
Session Resolver synthesizes the demo identity in memory — for any
content of the `user` table, so no stored user row backs it and none is
created — and writes the demo sentinel id into the transport session. -/
theorem demo_identity_synthesized_not_persisted (users : UserTable) :
    resolveSession true none users
      = ⟨some (-1), some Identity.demo, true⟩ := rfl

/-- Witness for the amended C8 with an empty `user` table. -/
theorem demo_identity_synthesized_not_persisted_witness :
    resolveSession true none [] = ⟨some (-1), some Identity.demo, true⟩ :=
  demo_identity_synthesized_not_persisted []

/-- C9: with no session token the resolution outcome is a function of the
demo-mode flag read for that very request: flag off gives no identity and
`is_demo = false`; flag on gives the demo identity and `is_demo = true`,
whatever the `user` table holds (no row is consulted or created); and
across two consecutive requests the second outcome tracks the second
request's flag value alone. -/
theorem demo_flag_read_per_request (users : UserTable) (b1 b2 : Bool) :
    (resolveSession false none users).user = none ∧
    (resolveSession false none users).is_demo_user = false ∧
    (resolveSession true none users).user = some Identity.demo ∧
    (resolveSession true none users).is_demo_user = true ∧
    (resolveSession b2 (resolveSession b1 none users).sessionAfter users).is_demo_user
      = b2 ∧
    (resolveSession b2 (resolveSession b1 none users).sessionAfter users).user
      = (if b2 then some Identity.demo else none) := by
  cases b1 <;> cases b2 <;> exact ⟨rfl, rfl, rfl, rfl, rfl, rfl⟩

/-- Witness for C9: toggling the flag off-then-on between two token-less
requests. -/
theorem demo_flag_read_per_request_witness :
    (resolveSession true (resolveSession false none []).sessionAfter []).is_demo_user
      = true :=
  (demo_flag_read_per_request [] false true).2.2.2.2.1

/-- Witness for the amended C3 at a concrete store and form. -/
theorem every_catalog_key_upserted_or_cleared_witness :
    externalProvidersPost [⟨1, "external-providers", "AI21_API_KEY", "x"⟩] 1 []
      = EXTERNAL_PROVIDER_ENVVARS.foldl
          (fun s e => upsert_or_clear s 1 "external-providers" e ((formGet [] e).getD ""))
          [⟨1, "external-providers", "AI21_API_KEY", "x"⟩] :=
  every_catalog_key_upserted_or_cleared
    [⟨1, "external-providers", "AI21_API_KEY", "x"⟩] 1 []

end Backaind
